import Mathlib

/-!
Verification of the pw-pipeline Mode S frame decoder.

A shallow embedding of `lib/tracker/mode_s/decode.go` from the
plane-watch/pw-pipeline repository.  Go byte slices are embedded as
`List Nat` (each entry a byte value `< 256`), Go strings as `List Char`
(the decoder only deals with ASCII data; theorems that quantify over
arbitrary strings carry an ASCII hypothesis so that Go's byte indexing
and the character-level model agree).  Machine integers are `Nat`/`Int`
with explicit masking where the Go code masks.  Fallible Go functions
(returning `error`) become functions returning `Option DecodeError`
paired with the updated frame state, mirroring Go's in-place mutation.

Functions of the repository that are referenced by `decode.go` but whose
source file is not part of the excerpt (the CRC engine, `checkCrc`,
`isNoOp`, `decodeID13Field`, `modeAToModeC`, `decodeAdsb`,
`decodeCommB`, the flight-status string table and the unit constants)
are modelled from the specification; each such definition carries a doc
comment starting with `Modelled from the spec:`.
-/

/-- The error values produced by the decoder.  Each constructor
corresponds to one `errors.New` / `fmt.Errorf` site in `decode.go`
(plus the spec's `BadCRC` and `NoOp`). -/
inductive DecodeError where
  /-- "cannot decode empty string" -/
  | emptyFrame
  /-- "frame (%s) too short to be a Mode S frame" -/
  | tooShort
  /-- "failed to decode beast avr timestamp" -/
  | badTimestamp
  /-- "failed to decode message raw" -/
  | failedRaw
  /-- "frame is an odd length (%d), cannot decode unless length is even" -/
  | oddLength
  /-- "frame is incorrect length. %d != 7 or 14" -/
  | badLength
  /-- `strconv.ParseUint` failure on a 2-character hex pair -/
  | badHex
  /-- "failed to decode message in bytes" -/
  | emptyMessage
  /-- "cannot parse AVR Frame (DF%d) (%X). Incorrect length %d != %d" -/
  | lengthMismatch
  /-- CRC syndrome mismatch on DF11/17/18 -/
  | badCrc
  /-- `ErrNoOp` -/
  | noop
  deriving Repr, DecidableEq

/-! ## Hex digits (Go `strconv.ParseUint(_, 16, _)` on individual chars) -/

/-- Value of one hexadecimal digit, as accepted by Go's
`strconv.ParseUint` with base 16 (digits, lower- and upper-case
letters). -/
def hexVal (c : Char) : Option Nat :=
  if '0' ≤ c ∧ c ≤ '9' then some (c.toNat - '0'.toNat)
  else if 'a' ≤ c ∧ c ≤ 'f' then some (c.toNat - 'a'.toNat + 10)
  else if 'A' ≤ c ∧ c ≤ 'F' then some (c.toNat - 'A'.toNat + 10)
  else none

/-- One step of `strconv.ParseUint(_, 16, _)`: shift in a hex digit,
failing on a non-digit. -/
def hexStep (acc : Option Nat) (c : Char) : Option Nat :=
  acc.bind fun a => (hexVal c).map fun d => a * 16 + d

/-- The function `strconv.ParseUint(s, 16, 64)` on a non-empty all-hex string:
most-significant digit first. -/
def hexParse (s : List Char) : Option Nat :=
  s.foldl hexStep (some 0)

/-- Decode consecutive 2-character hex pairs into byte values (the
value a successful run of the `parseRawToMessage` loop produces). -/
def hexPairsDecode : List Char → List Nat
  | c1 :: c2 :: rest =>
      (((hexVal c1).getD 0) * 16 + (hexVal c2).getD 0) :: hexPairsDecode rest
  | _ => []

/-! ## The Mode S CRC engine

Modelled from the spec: the CRC source file is not part of the source
excerpt.  Spec §4.1: polynomial
`x²⁴ + x²³ + … + x¹⁰ + x³ + 1` (`0xFFF409`), bytes fed most significant
first; `checksum(msg)` is the syndrome over the leading `L−24` bits and
`checksum_addr(msg)` XORs it with the trailing 24 bits. -/

/-- Modelled from the spec: one MSB-first CRC-24 register step with
generator `0xFFF409`. -/
def crcStep (c : Nat) : Nat :=
  if c &&& 0x800000 ≠ 0 then ((c <<< 1) ^^^ 0xFFF409) &&& 0xFFFFFF
  else (c <<< 1) &&& 0xFFFFFF

/-- Modelled from the spec: feed one byte (8 register steps) into the
running 24-bit CRC register. -/
def crcByte (reg b : Nat) : Nat :=
  crcStep (crcStep (crcStep (crcStep (crcStep (crcStep (crcStep (crcStep
    (reg ^^^ ((b &&& 0xFF) <<< 16)))))))))

/-- Modelled from the spec: 24-bit Mode S CRC over a byte string,
initial register 0, bytes most significant first. -/
def crc24 (bytes : List Nat) : Nat := bytes.foldl crcByte 0

/-- Big-endian 24-bit value of (the first three of) a list of bytes. -/
def u24be (l : List Nat) : Nat :=
  (l.getD 0 0) <<< 16 ||| (l.getD 1 0) <<< 8 ||| l.getD 2 0

/-- Modelled from the spec: `checksum(msg)` — the CRC syndrome computed
over the data portion (the leading `L − 24` bits, i.e. all bytes but
the last three). -/
def modeSChecksum (msg : List Nat) : Nat :=
  crc24 (msg.take (msg.length - 3))

/-- Trailing 24 bits of a message (the AP / PI field). -/
def trailing24 (msg : List Nat) : Nat :=
  u24be (msg.drop (msg.length - 3))

/-- Modelled from the spec: `checksum_addr(msg)` — data syndrome XOR
trailing 24 bits, the recovered address for AP-overlaid frames. -/
def modeSChecksumAddr (msg : List Nat) : Nat :=
  modeSChecksum msg ^^^ trailing24 msg

/-! ## The Frame value object

The fields of the Go `Frame` struct that `decode.go` reads or writes.
`message` is an `Option` because Go distinguishes a `nil` slice from an
allocated one (`parseRawToMessage` early-returns when `message` is
non-nil).  Wall-clock timestamps are omitted (no claim concerns them).
-/

structure Frame where
  full : List Char := []
  raw : List Char := []
  mode : String := ""
  beastTimeStamp : List Char := []
  beastTicks : Nat := 0
  beastTicksNs : Nat := 0
  message : Option (List Nat) := none
  fromBytes : Bool := false
  hasDecoded : Bool := false
  downLinkFormat : Nat := 0
  icao : Nat := 0
  ca : Nat := 0
  cc : Nat := 0
  fs : Nat := 0
  vs : Nat := 0
  ri : Nat := 0
  sl : Nat := 0
  dr : Nat := 0
  um : Nat := 0
  ac : Nat := 0
  acM : Bool := false
  acQ : Bool := false
  unit : Nat := 0
  altitude : Int := 0
  validAltitude : Bool := false
  validVerticalStatus : Bool := false
  onGround : Bool := false
  alert : Bool := false
  special : String := ""
  identity : Nat := 0
  messageType : Nat := 0
  commB : List Nat := []
  deriving Repr, DecidableEq

/-- Byte `i` of the frame's message (0 when the message is `nil` or too
short; the Go code would panic there, and no claim exercises that). -/
def msgByte (f : Frame) (i : Nat) : Nat := (f.message.getD []).getD i 0

/-- Length in bytes of the frame's message (`len(f.message)`; 0 for a
`nil` slice, as in Go). -/
def msgLen (f : Frame) : Nat := (f.message.getD []).length

/-- The function `NewFrame`: a fresh frame holding the raw text of one received
frame (the wall-clock timestamp is omitted). -/
def mkFrame (s : List Char) : Frame := { full := s }

/-! ## AVR text parsing -/

/-- The trim predicate of `parseIntoRaw`: `unicode.IsSpace(r) || r == ';'`
(the ASCII space characters). -/
def isTrimChar (c : Char) : Bool :=
  c = ';' || c = ' ' || c.toNat = 9 || c.toNat = 10 || c.toNat = 11 ||
    c.toNat = 12 || c.toNat = 13

/-- The function `strings.TrimFunc`: remove leading and trailing characters matching
the predicate. -/
def trimGo (s : List Char) : List Char :=
  ((s.dropWhile isTrimChar).reverse.dropWhile isTrimChar).reverse

/-- The Beast timestamp string `"00000000000"` that `parseBeastTimeStamp`
skips. -/
def zeros11 : List Char := List.replicate 11 '0'

/-- The function `parseBeastTimeStamp`: parse `f.beastTimeStamp` as hex ticks unless
it is empty or all zeros; on success also derive the nanosecond count
(`ticks * 500`). -/
def parseBeastTimeStamp (f : Frame) : Option DecodeError × Frame :=
  if f.beastTimeStamp = [] ∨ f.beastTimeStamp = zeros11 then (none, f)
  else if (hexParse f.beastTimeStamp).isSome then
    (none, { f with beastTicks := (hexParse f.beastTimeStamp).getD 0,
                    beastTicksNs := (hexParse f.beastTimeStamp).getD 0 * 500 })
  else (some .badTimestamp, f)

/-- The write loop of `parseRawToMessage`: decode 2-character hex pairs
into the pre-allocated message buffer, starting at `index`; stop with an
error at the first bad pair, leaving the partially-written buffer. -/
def writePairs : List Char → List Nat → Nat → Option DecodeError × List Nat
  | [], msg, _ => (none, msg)
  | c1 :: c2 :: rest, msg, index =>
      match hexVal c1, hexVal c2 with
      | some h, some l => writePairs rest (msg.set index (h * 16 + l)) (index + 1)
      | _, _ => (some .badHex, msg)
  | _ :: [], msg, _ => (some .badHex, msg)

/-- The function `parseRawToMessage`: hex-decode `f.raw` into a 7- or 14-byte
message.  Mirrors the Go code: no-op when `message` is already non-nil;
the buffer is allocated (zero-filled) before the decode loop, so a bad
hex pair leaves a partially-written message behind. -/
def parseRawToMessage (f : Frame) : Option DecodeError × Frame :=
  if f.message ≠ none then (none, f)
  else if f.raw.length % 2 ≠ 0 then (some .oddLength, f)
  else if ¬(f.raw.length / 2 = 7 ∨ f.raw.length / 2 = 14) then (some .badLength, f)
  else if (writePairs f.raw (List.replicate (f.raw.length / 2) 0) 0).1 = none then
    if (writePairs f.raw (List.replicate (f.raw.length / 2) 0) 0).2.length = 0 then
      (some .emptyMessage,
       { f with message := some (writePairs f.raw (List.replicate (f.raw.length / 2) 0) 0).2 })
    else
      (none,
       { f with message := some (writePairs f.raw (List.replicate (f.raw.length / 2) 0) 0).2 })
  else
    ((writePairs f.raw (List.replicate (f.raw.length / 2) 0) 0).1,
     { f with message := some (writePairs f.raw (List.replicate (f.raw.length / 2) 0) 0).2 })

/-- The function `parseIntoRaw`: trim framing, recognise the `@`-MLAT or `*` prefix,
and hex-decode the remainder into the message. -/
def parseIntoRaw (f : Frame) : Option DecodeError × Frame :=
  if 0 < f.raw.length then (none, f)
  else
    let encodedFrame := trimGo f.full
    if encodedFrame = [] then (some .emptyFrame, f)
    else if encodedFrame.length < 14 then (some .tooShort, f)
    else
      let f1 : Frame :=
        { f with mode := if encodedFrame.headD ' ' = '@' then "MLAT" else "NORMAL" }
      if encodedFrame.headD ' ' = '@' then
        let f2 : Frame := { f1 with beastTimeStamp := (encodedFrame.drop 1).take 11 }
        if (parseBeastTimeStamp f2).1 = none then
          let f4 : Frame := { (parseBeastTimeStamp f2).2 with raw := encodedFrame.drop 13 }
          if f4.raw = [] then (some .failedRaw, f4) else parseRawToMessage f4
        else parseBeastTimeStamp f2
      else
        let frameStart := if encodedFrame.headD ' ' = '*' then 1 else 0
        let f4 : Frame := { f1 with raw := encodedFrame.drop frameStart }
        if f4.raw = [] then (some .failedRaw, f4) else parseRawToMessage f4

/-! ## Field decoders -/

/-- The function `decodeDownLinkFormat` on the first message byte: DF24 when the top
two bits are both set, otherwise the top five bits. -/
def dlfOf (b : Nat) : Nat :=
  if b &&& 0xc0 = 0xc0 then 24 else b >>> 3

/-- The function `decodeDownLinkFormat`: store the downlink format derived from
`message[0]`. -/
def decodeDownLinkFormat (f : Frame) : Frame :=
  { f with downLinkFormat := dlfOf (msgByte f 0) }

/-- The function `getMessageLengthBytes`: 14 bytes for DFs with bit 4 set, else 7. -/
def getMessageLengthBytes (f : Frame) : Nat :=
  if f.downLinkFormat &&& 0x10 ≠ 0 then 14 else 7

/-- Modelled from the spec: `checkCrc` (its source is not in the
excerpt).  DF11/17/18 carry a pure parity (PI) field, so the syndrome
over the leading bits must equal the trailing 24 bits (`BadCRC`
otherwise); on AP-overlaid DFs the check cannot fail. -/
def checkCrc (f : Frame) : Option DecodeError :=
  if f.downLinkFormat = 11 ∨ f.downLinkFormat = 17 ∨ f.downLinkFormat = 18 then
    if modeSChecksum (f.message.getD []) = trailing24 (f.message.getD [])
    then none else some .badCrc
  else none

/-- The function `decodeCapability`: CA is the low three bits of `message[0]`;
CA 4/5 also set the vertical status. -/
def decodeCapability (f : Frame) : Frame :=
  let f := { f with ca := msgByte f 0 &&& 7 }
  if f.ca = 4 then { f with validVerticalStatus := true, onGround := true }
  else if f.ca = 5 then { f with validVerticalStatus := true, onGround := false }
  else f

/-- The function `decodeCrossLinkCapability`: `message[0] & 0x2 >> 1`. -/
def decodeCrossLinkCapability (f : Frame) : Frame :=
  { f with cc := (msgByte f 0 &&& 0x2) >>> 1 }

/-- Modelled from the spec: the flight-status description table (its
source is not in the excerpt); entries follow the table in the comment
above `decodeFlightStatus`. -/
def flightStatusTable (fs : Nat) : String :=
  match fs with
  | 0 => "no alert, no SPI, aircraft is airborne"
  | 1 => "no alert, no SPI, aircraft is on-ground"
  | 2 => "alert, no SPI, aircraft is airborne"
  | 3 => "alert, no SPI, aircraft is on-ground"
  | 4 => "alert, SPI, aircraft is airborne or on-ground"
  | 5 => "no alert, SPI, aircraft is airborne or on-ground"
  | 6 => "reserved"
  | _ => "not assigned"

/-- The function `decodeFlightStatus`: FS is the low three bits of `message[0]`;
note that the special-status string is *appended* (`+=`). -/
def decodeFlightStatus (f : Frame) : Frame :=
  let f1 : Frame := { f with fs := msgByte f 0 &&& 0x7 }
  let f2 : Frame := if f1.fs = 0 ∨ f1.fs = 2 then
      { f1 with validVerticalStatus := true, onGround := false } else f1
  let f3 : Frame := if f2.fs = 1 ∨ f2.fs = 3 then
      { f2 with validVerticalStatus := true, onGround := true } else f2
  let f4 : Frame := if f3.fs = 4 ∨ f3.fs = 5 then
      let g : Frame := { f3 with validVerticalStatus := false, onGround := false }
      if g.fs ≤ 7 then { g with special := g.special ++ flightStatusTable g.fs }
      else { g with special := g.special ++ "Unknown Flight Status: " ++ toString g.fs }
    else f3
  if f4.fs = 2 ∨ f4.fs = 3 ∨ f4.fs = 4 then { f4 with alert := true } else f4

/-- The function `decodeVerticalStatus`: VS bit of `message[0]`. -/
def decodeVerticalStatus (f : Frame) : Frame :=
  let vs := (msgByte f 0 &&& 4) >>> 2
  { f with vs := vs, onGround := vs ≠ 0, validVerticalStatus := true }

/-- The function `decodeReplyInformation`: bits 13–16. -/
def decodeReplyInformation (f : Frame) : Frame :=
  { f with ri := (msgByte f 1 &&& 7) <<< 1 ||| (msgByte f 2 &&& 0x80) >>> 7 }

/-- The function `decodeSensitivityLevel`. -/
def decodeSensitivityLevel (f : Frame) : Frame :=
  { f with sl := (msgByte f 1 &&& 0xe0) >>> 5 }

/-- The function `decodeDownLinkRequest`. -/
def decodeDownLinkRequest (f : Frame) : Frame :=
  { f with dr := (msgByte f 1 &&& 0xf8) >>> 3 }

/-- The function `decodeUtilityMessage`. -/
def decodeUtilityMessage (f : Frame) : Frame :=
  { f with um := (msgByte f 1 &&& 0x7) <<< 3 ||| (msgByte f 2 &&& 0xe0) >>> 5 }

/-- The function `decodeICAO`: AP-overlay recovery for DF0/4/5/16/20/21, bytes 1–3
for DF11/17/18, zero for all other listed DFs (the Go switch lists every
value 0–31; an out-of-range DF falls through unchanged). -/
def decodeICAO (f : Frame) : Frame :=
  if f.downLinkFormat = 0 ∨ f.downLinkFormat = 4 ∨ f.downLinkFormat = 5 ∨
      f.downLinkFormat = 16 ∨ f.downLinkFormat = 20 ∨ f.downLinkFormat = 21 then
    { f with icao := modeSChecksumAddr (f.message.getD []) }
  else if f.downLinkFormat = 1 ∨ f.downLinkFormat = 2 ∨ f.downLinkFormat = 3 ∨
      f.downLinkFormat = 6 ∨ f.downLinkFormat = 7 ∨ f.downLinkFormat = 8 ∨
      f.downLinkFormat = 9 ∨ f.downLinkFormat = 10 ∨ f.downLinkFormat = 12 ∨
      f.downLinkFormat = 13 ∨ f.downLinkFormat = 14 ∨ f.downLinkFormat = 15 ∨
      f.downLinkFormat = 19 ∨ f.downLinkFormat = 22 ∨ f.downLinkFormat = 23 ∨
      f.downLinkFormat = 24 ∨ f.downLinkFormat = 25 ∨ f.downLinkFormat = 26 ∨
      f.downLinkFormat = 27 ∨ f.downLinkFormat = 28 ∨ f.downLinkFormat = 29 ∨
      f.downLinkFormat = 30 ∨ f.downLinkFormat = 31 then
    { f with icao := 0 }
  else if f.downLinkFormat = 11 ∨ f.downLinkFormat = 17 ∨ f.downLinkFormat = 18 then
    { f with icao := msgByte f 1 <<< 16 ||| msgByte f 2 <<< 8 ||| msgByte f 3 }
  else f

/-- The function `decodeSquawkIdentity`: de-interleave the Gillham squawk digits from
the two message bytes at the given indices. -/
def decodeSquawkIdentity (f : Frame) (byte1 byte2 : Nat) : Frame :=
  let msg2 := msgByte f byte1
  let msg3 := msgByte f byte2
  let a := ((msg3 &&& 0x80) >>> 5) ||| (msg2 &&& 0x02) ||| ((msg2 &&& 0x08) >>> 3)
  let b := ((msg3 &&& 0x02) <<< 1) ||| ((msg3 &&& 0x08) >>> 2) ||| ((msg3 &&& 0x20) >>> 5)
  let c := ((msg2 &&& 0x01) <<< 2) ||| ((msg2 &&& 0x04) >>> 1) ||| ((msg2 &&& 0x10) >>> 4)
  let d := ((msg3 &&& 0x01) <<< 2) ||| ((msg3 &&& 0x04) >>> 1) ||| ((msg3 &&& 0x10) >>> 4)
  { f with identity := a * 1000 + b * 100 + c * 10 + d }

/-- Modelled from the spec: the frame's altitude unit constants
(`feet`/`metres`, defined outside the excerpt). -/
def modesUnitFeet : Nat := 0

/-- Modelled from the spec: see `modesUnitFeet`. -/
def modesUnitMetres : Nat := 1

/-- Modelled from the spec: `decodeID13Field` (source outside the
excerpt) — de-interleave a 13-bit ID13 field, per the
`C1-A1-C2-A2-C4-A4-ZERO-B1-D1-B2-D2-B4-D4` pattern, into the
"hex Gillham" Mode A layout. -/
def decodeID13Field (id13 : Nat) : Nat :=
  (if id13 &&& 0x1000 ≠ 0 then 0x0010 else 0) |||
  (if id13 &&& 0x0800 ≠ 0 then 0x1000 else 0) |||
  (if id13 &&& 0x0400 ≠ 0 then 0x0020 else 0) |||
  (if id13 &&& 0x0200 ≠ 0 then 0x2000 else 0) |||
  (if id13 &&& 0x0100 ≠ 0 then 0x0040 else 0) |||
  (if id13 &&& 0x0080 ≠ 0 then 0x4000 else 0) |||
  (if id13 &&& 0x0020 ≠ 0 then 0x0100 else 0) |||
  (if id13 &&& 0x0010 ≠ 0 then 0x0001 else 0) |||
  (if id13 &&& 0x0008 ≠ 0 then 0x0200 else 0) |||
  (if id13 &&& 0x0004 ≠ 0 then 0x0002 else 0) |||
  (if id13 &&& 0x0002 ≠ 0 then 0x0400 else 0) |||
  (if id13 &&& 0x0001 ≠ 0 then 0x0004 else 0)

/-- Modelled from the spec: `modeAToModeC` (source outside the excerpt)
— Gillham-to-Mode-C: Gray-coded 500-ft bands with 100-ft fine steps;
invalid codes yield the `-9999` sentinel (rejected by the caller's
`altitude >= -12` check). -/
def modeAToModeC (modeA : Nat) : Int :=
  if modeA &&& 0xFFFF888B ≠ 0 ∨ modeA &&& 0x000000F0 = 0 then -9999
  else
    let oneHundreds : Nat :=
      (if modeA &&& 0x0010 ≠ 0 then 0x007 else 0) ^^^
      (if modeA &&& 0x0020 ≠ 0 then 0x003 else 0) ^^^
      (if modeA &&& 0x0040 ≠ 0 then 0x001 else 0)
    let oneHundreds := if oneHundreds &&& 5 = 5 then oneHundreds ^^^ 2 else oneHundreds
    if oneHundreds > 5 then -9999
    else
      let fiveHundreds : Nat :=
        (if modeA &&& 0x0002 ≠ 0 then 0x0FF else 0) ^^^
        (if modeA &&& 0x0004 ≠ 0 then 0x07F else 0) ^^^
        (if modeA &&& 0x1000 ≠ 0 then 0x03F else 0) ^^^
        (if modeA &&& 0x2000 ≠ 0 then 0x01F else 0) ^^^
        (if modeA &&& 0x4000 ≠ 0 then 0x00F else 0) ^^^
        (if modeA &&& 0x0100 ≠ 0 then 0x007 else 0) ^^^
        (if modeA &&& 0x0200 ≠ 0 then 0x003 else 0) ^^^
        (if modeA &&& 0x0400 ≠ 0 then 0x001 else 0)
      let oneHundreds : Int :=
        if fiveHundreds &&& 1 ≠ 0 then 6 - (oneHundreds : Int) else (oneHundreds : Int)
      (fiveHundreds : Int) * 5 + oneHundreds - 13

/-- The function `decode13bitAltitudeCode`: extract the AC13 field from bits 20–32,
branch on the M and Q bits (the Go function's `error` return is always
`nil`). -/
def decode13bitAltitudeCode (f : Frame) : Frame :=
  let f := { f with ac := (msgByte f 2 &&& 0x1F) <<< 8 ||| msgByte f 3 }
  let f := { f with acM := f.ac &&& 0x40 = 0x40, acQ := f.ac &&& 0x10 = 0x10 }
  if ¬f.acM ∧ f.acQ then
    let n : Nat := ((f.ac &&& 0x1F80) >>> 2) ||| ((f.ac &&& 0x0020) >>> 1) |||
      (f.ac &&& 0x000F)
    { f with unit := modesUnitFeet, altitude := (n : Int) * 25 - 1000,
             validAltitude := true }
  else if ¬f.acM ∧ ¬f.acQ then
    -- Go sets altitude, derives validity, zeroes when invalid, then
    -- multiplies by 100; the net effect on each field is written here
    -- in one record update.
    let raw : Int := modeAToModeC (decodeID13Field f.ac)
    { f with unit := modesUnitFeet,
             altitude := (if raw ≥ -12 then raw else 0) * 100,
             validAltitude := raw ≥ -12 }
  else
    { f with unit := modesUnitMetres, validAltitude := false }

/-- Modelled from the spec: `decodeAdsb` (source outside the excerpt) —
the ADS-B ME sub-decoder reads `message[4] >> 3` as the ME type code
and dispatches on it; the embedding records the type code (the
observable witness that the sub-decoder ran), eliding the per-TC field
extraction, which no claim concerns. -/
def decodeAdsb (f : Frame) : Frame :=
  { f with messageType := msgByte f 4 >>> 3 }

/-- Modelled from the spec: `decodeCommB` (source outside the excerpt)
— capture the Comm-B (MB) payload bytes of a DF20/21 frame. -/
def decodeCommB (f : Frame) : Option DecodeError × Frame :=
  (none, { f with commB := ((f.message.getD []).drop 4).take 7 })

/-- Modelled from the spec: `isNoOp` (source outside the excerpt) — a
heartbeat frame: the payload parses as DF24 with an all-zero body. -/
def isNoOp (f : Frame) : Bool :=
  match f.message with
  | none => false
  | some m => dlfOf (m.getD 0 0) = 24 && (m.drop 1).all (· = 0)

/-! ## DF dispatch and the decode entry points -/

/-- The DF-dispatch switch of `parse` (every `err` assigned in the Go
switch is `nil`: `decode13bitAltitudeCode` always returns `nil` and the
modelled `decodeCommB` cannot fail). -/
def dispatchDF (f : Frame) : Frame :=
  if f.downLinkFormat = 0 then
    decode13bitAltitudeCode (decodeReplyInformation (decodeSensitivityLevel
      (decodeCrossLinkCapability (decodeVerticalStatus (decodeICAO f)))))
  else if f.downLinkFormat = 4 then
    decode13bitAltitudeCode (decodeUtilityMessage (decodeDownLinkRequest
      (decodeFlightStatus (decodeICAO f))))
  else if f.downLinkFormat = 5 then
    decodeSquawkIdentity (decodeUtilityMessage (decodeDownLinkRequest
      (decodeFlightStatus (decodeICAO f)))) 2 3
  else if f.downLinkFormat = 11 then
    decodeCapability (decodeICAO f)
  else if f.downLinkFormat = 16 then
    decodeSensitivityLevel (decodeReplyInformation
      (decode13bitAltitudeCode (decodeVerticalStatus (decodeICAO f))))
  else if f.downLinkFormat = 17 then
    decodeAdsb (decodeCapability (decodeICAO f))
  else if f.downLinkFormat = 18 then
    if (decodeCapability f).ca = 0 then decodeAdsb (decodeICAO (decodeCapability f))
    else decodeCapability f
  else if f.downLinkFormat = 20 then
    (decodeCommB (decode13bitAltitudeCode
      (decodeFlightStatus (decodeICAO f)))).2
  else if f.downLinkFormat = 21 then
    (decodeCommB (decodeSquawkIdentity
      (decodeFlightStatus (decodeICAO f)) 2 3)).2
  else f

/-- The function `parse`: derive the DF, check the payload length against the DF,
check the CRC, and dispatch to the per-DF field decoders. -/
def parse (f : Frame) : Option DecodeError × Frame :=
  if getMessageLengthBytes (decodeDownLinkFormat f) ≠ msgLen (decodeDownLinkFormat f) then
    (some .lengthMismatch, decodeDownLinkFormat f)
  else
    match checkCrc (decodeDownLinkFormat f) with
    | some e => (some e, decodeDownLinkFormat f)
    | none => (none, dispatchDF (decodeDownLinkFormat f))

/-- The function `Decode` on a non-nil frame: skip when already decoded; parse the
text into bytes when not constructed from bytes (failing for NoOp
heartbeats); run `parse` and latch `hasDecoded` on success.  (The Go
mutex only serialises concurrent callers and has no sequential
effect.) -/
def Decode (f : Frame) : Option DecodeError × Frame :=
  if f.hasDecoded then (none, f)
  else if f.fromBytes then
    if (parse f).1 = none then (none, { (parse f).2 with hasDecoded := true })
    else parse f
  else
    if (parseIntoRaw f).1 = none then
      if isNoOp (parseIntoRaw f).2 then (some .noop, (parseIntoRaw f).2)
      else if (parse (parseIntoRaw f).2).1 = none then
        (none, { (parse (parseIntoRaw f).2).2 with hasDecoded := true })
      else parse (parseIntoRaw f).2
    else parseIntoRaw f

/-- The function `Decode` including the nil-receiver guard: Go's `f.Decode()` on a
nil `*Frame` returns `nil` immediately and touches no state. -/
def DecodeRecv : Option Frame → Option DecodeError × Option Frame
  | none => (none, none)
  | some f => ((Decode f).1, some (Decode f).2)

/-! ## Spec-side reference definitions

These definitions follow the wording of the claims (not the code); the
refinement theorems compare the code's computations against them. -/

/-- The claim's (C7) "11-bit integer obtained by deleting the Q and M
bits" from a 13-bit altitude code: bits 12–7 of the code become bits
10–5, bit 5 becomes bit 4, bits 3–0 stay. -/
def removeQM (a : Nat) : Nat :=
  ((a >>> 7) <<< 5) ||| (((a >>> 5) &&& 1) <<< 4) ||| (a &&& 0xF)

/-- The 0/1 value of one bit of a byte. -/
def gillhamBit (v i : Nat) : Nat := if v.testBit i then 1 else 0

/-- The A squawk digit per the claim's (C8) interleave pattern
`C1-A1-C2-A2-C4-A4-ZERO-B1-D1-B2-D2-B4-D4` laid over the 13 bits
`x[4..0] ++ y[7..0]`: `A1 = x₃`, `A2 = x₁`, `A4 = y₇`. -/
def squawkA (x y : Nat) : Nat := 4 * gillhamBit y 7 + 2 * gillhamBit x 1 + gillhamBit x 3

/-- The B squawk digit: `B1 = y₅`, `B2 = y₃`, `B4 = y₁`. -/
def squawkB (y : Nat) : Nat := 4 * gillhamBit y 1 + 2 * gillhamBit y 3 + gillhamBit y 5

/-- The C squawk digit: `C1 = x₄`, `C2 = x₂`, `C4 = x₀`. -/
def squawkC (x : Nat) : Nat := 4 * gillhamBit x 0 + 2 * gillhamBit x 2 + gillhamBit x 4

/-- The D squawk digit: `D1 = y₄`, `D2 = y₂`, `D4 = y₀`. -/
def squawkD (y : Nat) : Nat := 4 * gillhamBit y 0 + 2 * gillhamBit y 2 + gillhamBit y 4

/-- A Beast AVR timestamp string the parser accepts: the all-zero
timestamp (skipped) or all hex digits. -/
def tsOk (ts : List Char) : Prop :=
  ts = zeros11 ∨ ∀ c ∈ ts, (hexVal c).isSome = true

/-- The characters of a trimmed AVR frame that the *code* hex-decodes
into the message: offset 13 for an `@`-prefixed frame (`@`, 11
timestamp digits, one skipped character), 1 for `*`, 0 otherwise. -/
def avrRest (s : List Char) : List Char :=
  if (trimGo s).headD ' ' = '@' then (trimGo s).drop 13
  else if (trimGo s).headD ' ' = '*' then (trimGo s).drop 1
  else trimGo s

/-- The amended claim's characterisation of a parseable AVR frame. -/
def avrFramingOk (s : List Char) : Prop :=
  trimGo s ≠ [] ∧ 14 ≤ (trimGo s).length ∧
  ((trimGo s).headD ' ' = '@' → tsOk (((trimGo s).drop 1).take 11)) ∧
  ((avrRest s).length = 14 ∨ (avrRest s).length = 28) ∧
  ∀ c ∈ avrRest s, (hexVal c).isSome = true

/-- The characters remaining after the framing as claim C6 words it:
the `@` framing is `@` plus the 11-digit timestamp, so the message
would start at offset 12. -/
def avrClaimRest (s : List Char) : List Char :=
  if (trimGo s).headD ' ' = '@' then (trimGo s).drop 12
  else if (trimGo s).headD ' ' = '*' then (trimGo s).drop 1
  else trimGo s

/-- Claim C6's stated success condition: after removing framing, an
even count of 14 or 28 characters, all hex. -/
def avrClaimOk (s : List Char) : Prop :=
  ((avrClaimRest s).length = 14 ∨ (avrClaimRest s).length = 28) ∧
  ∀ c ∈ avrClaimRest s, (hexVal c).isSome = true

/-! ## Concrete example frames (used by witnesses and counterexamples) -/

/-- The spec's S5 example message `8D4840D6202CC371C32CE0576098`
(DF17, ICAO 4840D6), as a frame with the DF already derived. -/
def exampleDF17 : Frame :=
  { downLinkFormat := 17,
    message := some [0x8D, 0x48, 0x40, 0xD6, 0x20, 0x2C, 0xC3,
                     0x71, 0xC3, 0x2C, 0xE0, 0x57, 0x60, 0x98] }

/-- A CRC-valid DF18 message with CF = 0 and an all-zero body: the
trailing three bytes are the syndrome of the leading eleven. -/
def exampleDF18 : Frame :=
  { message := some [0x90, 0, 0, 0, 0, 0, 0, 0, 0, 0, 0, 0x41, 0xEE, 0x55] }

/-- A parseable DF5 AVR frame (no CRC constraint on DF5). -/
def goodAvr : List Char := "*28000000000000".toList

/-- An AVR frame whose last hex pair is invalid (`0G`). -/
def badHexAvr : List Char := "*2800000000000G".toList

/-- An MLAT AVR frame with a marker character `A` at index 12, between
the 11-digit timestamp and the 14-digit payload. -/
def mlatMarkerAvr : List Char := "@00000000000A00000000000000".toList

/-- An MLAT AVR frame in which exactly 14 hex digits follow the '@' and
the 11-digit timestamp. -/
def mlatShortAvr : List Char := "@0000000000000000000000000".toList

/-! ## Theorems -/

set_option maxRecDepth 10000
set_option maxHeartbeats 2000000

/-- Helper: the downlink format derived from a byte is below 32. -/
lemma dlfOf_lt_32 : ∀ b < 256, dlfOf b < 32 := by decide

/-- Helper: characterisation of `dlfOf` on byte values. -/
lemma dlfOf_char : ∀ b < 256,
    ((dlfOf b = 24 ↔ b &&& 0xc0 = 0xc0) ∧
      (b &&& 0xc0 ≠ 0xc0 → dlfOf b = b >>> 3)) := by decide

/-- Claim C10: calling `Decode()` on a nil `*Frame` receiver returns a nil
error (success) rather than panicking or failing, and there is no frame
state left to observe. -/
theorem c10_nil_receiver_decode : DecodeRecv none = (none, none) := rfl

/-- Claim C4: `decodeDownLinkFormat` sets `downlink_format` to 24 exactly
when the top two bits of `message[0]` are both set, and to
`message[0] >> 3` in every other case. -/
theorem c4_downlink_format (f : Frame) (h : msgByte f 0 < 256) :
    ((decodeDownLinkFormat f).downLinkFormat = 24 ↔ msgByte f 0 &&& 0xc0 = 0xc0) ∧
    (msgByte f 0 &&& 0xc0 ≠ 0xc0 →
      (decodeDownLinkFormat f).downLinkFormat = msgByte f 0 >>> 3) := by
  have h1 := dlfOf_char (msgByte f 0) h
  simpa [decodeDownLinkFormat] using h1

/-- Witness for C4 at a concrete frame (`message[0] = 0x8D`, DF17). -/
theorem c4_downlink_format_witness :
    msgByte exampleDF17 0 < 256 ∧
    (((decodeDownLinkFormat exampleDF17).downLinkFormat = 24 ↔
        msgByte exampleDF17 0 &&& 0xc0 = 0xc0) ∧
      (msgByte exampleDF17 0 &&& 0xc0 ≠ 0xc0 →
        (decodeDownLinkFormat exampleDF17).downLinkFormat =
          msgByte exampleDF17 0 >>> 3)) :=
  ⟨by decide, c4_downlink_format _ (by decide)⟩

/-- Claim C1: `decodeICAO` — for DF0/4/5/16/20/21 the `icao` field becomes
the CRC syndrome over the leading `L−24` bits XORed with the trailing
24 bits (AP overlay recovery); for DF11/17/18 it is the big-endian
value of message bytes 1–3; for every other downlink format it is set
to 0. -/
theorem c1_decode_icao (f : Frame) (h : f.downLinkFormat < 32) :
    ((f.downLinkFormat = 0 ∨ f.downLinkFormat = 4 ∨ f.downLinkFormat = 5 ∨
        f.downLinkFormat = 16 ∨ f.downLinkFormat = 20 ∨ f.downLinkFormat = 21) →
      (decodeICAO f).icao
        = crc24 ((f.message.getD []).take ((f.message.getD []).length - 3)) ^^^
            u24be ((f.message.getD []).drop ((f.message.getD []).length - 3))) ∧
    ((f.downLinkFormat = 11 ∨ f.downLinkFormat = 17 ∨ f.downLinkFormat = 18) →
      (decodeICAO f).icao = msgByte f 1 <<< 16 ||| msgByte f 2 <<< 8 ||| msgByte f 3) ∧
    (¬(f.downLinkFormat = 0 ∨ f.downLinkFormat = 4 ∨ f.downLinkFormat = 5 ∨
        f.downLinkFormat = 16 ∨ f.downLinkFormat = 20 ∨ f.downLinkFormat = 21 ∨
        f.downLinkFormat = 11 ∨ f.downLinkFormat = 17 ∨ f.downLinkFormat = 18) →
      (decodeICAO f).icao = 0) := by
  refine ⟨fun h1 => ?_, fun h2 => ?_, fun h3 => ?_⟩
  · rw [decodeICAO, if_pos h1]
    simp [modeSChecksumAddr, modeSChecksum, trailing24]
  · rw [decodeICAO, if_neg (by omega), if_neg (by omega), if_pos h2]
  · rw [decodeICAO, if_neg (by omega), if_pos (by omega)]

/-- Witness for C1 at the DF17 example frame
`8D4840D6202CC371C32CE0576098`. -/
theorem c1_decode_icao_witness :
    exampleDF17.downLinkFormat < 32 ∧ (decodeICAO exampleDF17).icao = 0x4840D6 :=
  ⟨by decide, by
    have h1 := c1_decode_icao exampleDF17 (by decide)
    have h2 := h1.2.1 (by decide)
    rw [h2]; decide⟩

/-- Helper: on every 13-bit altitude code, the Go bit surgery
`((ac & 0x1F80) >> 2) | ((ac & 0x0020) >> 1) | (ac & 0x000F)` computes
exactly the delete-Q-and-M reconstruction (checked over the 5-bit high
part and the 8-bit low part of the code). -/
lemma ac13_n_eq_removeQM : ∀ u < 32, ∀ y < 256,
    (((u <<< 8 ||| y) &&& 0x1F80) >>> 2) ||| (((u <<< 8 ||| y) &&& 0x0020) >>> 1) |||
        ((u <<< 8 ||| y) &&& 0x000F)
      = removeQM (u <<< 8 ||| y) := by decide

/-- Claim C7: `decode13bitAltitudeCode` — with `M = 0, Q = 1` the altitude
is `n·25 − 1000` ft for `n` the 11-bit integer obtained by deleting the
Q and M bits; and (starting from a fresh frame) the decoded altitude is
a multiple of 25 whenever `Q = 1` and a multiple of 100 whenever
`Q = 0`. -/
theorem c7_ac13_altitude (f : Frame) (h2 : msgByte f 2 < 256)
    (h3 : msgByte f 3 < 256) (h0 : f.altitude = 0) :
    (((msgByte f 2 &&& 0x1F) <<< 8 ||| msgByte f 3) &&& 0x40 ≠ 0x40 →
      ((msgByte f 2 &&& 0x1F) <<< 8 ||| msgByte f 3) &&& 0x10 = 0x10 →
      (decode13bitAltitudeCode f).altitude
        = (removeQM ((msgByte f 2 &&& 0x1F) <<< 8 ||| msgByte f 3) : Int) * 25 - 1000) ∧
    (((msgByte f 2 &&& 0x1F) <<< 8 ||| msgByte f 3) &&& 0x10 = 0x10 →
      (decode13bitAltitudeCode f).altitude % 25 = 0) ∧
    (((msgByte f 2 &&& 0x1F) <<< 8 ||| msgByte f 3) &&& 0x10 ≠ 0x10 →
      (decode13bitAltitudeCode f).altitude % 100 = 0) := by
  have hu : msgByte f 2 &&& 0x1F < 32 := by
    have h5 := Nat.and_le_right (n := msgByte f 2) (m := 0x1F)
    omega
  have hn := ac13_n_eq_removeQM (msgByte f 2 &&& 0x1F) hu (msgByte f 3) h3
  simp only [decode13bitAltitudeCode]
  refine ⟨fun hM hQ => ?_, fun hQ => ?_, fun hQ => ?_⟩
  · rw [if_pos (by simp [hM, hQ])]
    simp only [hn]
  · by_cases hM : ((msgByte f 2 &&& 0x1F) <<< 8 ||| msgByte f 3) &&& 0x40 = 0x40
    · rw [if_neg (by simp [hM]), if_neg (by simp [hM])]
      simp [h0]
    · rw [if_pos (by simp [hM, hQ])]
      simp only []
      omega
  · by_cases hM : ((msgByte f 2 &&& 0x1F) <<< 8 ||| msgByte f 3) &&& 0x40 = 0x40
    · rw [if_neg (by simp [hM]), if_neg (by simp [hM])]
      simp [h0]
    · rw [if_neg (by simp [hQ]), if_pos (by simp [hM, hQ])]
      simp only []
      split
      · exact Int.mul_emod_left _ _
      · exact Int.mul_emod_left _ _

/-- Witness for C7: a frame whose AC13 code is `0x0010` (`M = 0`,
`Q = 1`, all data bits zero), decoding to −1000 ft. -/
theorem c7_ac13_altitude_witness :
    msgByte ({ message := some [0x20, 0, 0, 0x10, 0, 0, 0] } : Frame) 2 < 256 ∧
    msgByte ({ message := some [0x20, 0, 0, 0x10, 0, 0, 0] } : Frame) 3 < 256 ∧
    ({ message := some [0x20, 0, 0, 0x10, 0, 0, 0] } : Frame).altitude = 0 ∧
    (decode13bitAltitudeCode ({ message := some [0x20, 0, 0, 0x10, 0, 0, 0] } : Frame)).altitude
      = -1000 := by
  refine ⟨by decide, by decide, by decide, ?_⟩
  have h1 := (c7_ac13_altitude ({ message := some [0x20, 0, 0, 0x10, 0, 0, 0] } : Frame)
    (by decide) (by decide) (by decide)).1 (by decide) (by decide)
  rw [h1]; decide

/-- Helper: the Go expression for the A squawk digit (bit 7 of the
second byte pre-shifted to its weight) equals the claim's pattern
digit. -/
lemma squawkA_code_eq : ∀ t : Bool, ∀ x < 256,
    ((if t then 4 else 0) ||| (x &&& 0x02) ||| ((x &&& 0x08) >>> 3))
      = 4 * (if t then 1 else 0) + 2 * gillhamBit x 1 + gillhamBit x 3 := by decide

/-- Helper: `(y & 0x80) >> 5` is the A4 bit at weight 4. -/
lemma squawkA_hi_eq : ∀ y < 256, (y &&& 0x80) >>> 5 = if y.testBit 7 then 4 else 0 := by
  decide

/-- Helper: the Go expression for the B digit equals the pattern digit
and is at most 7. -/
lemma squawkB_code_eq : ∀ y < 256,
    (((y &&& 0x02) <<< 1) ||| ((y &&& 0x08) >>> 2) ||| ((y &&& 0x20) >>> 5) = squawkB y) ∧
      squawkB y ≤ 7 := by decide

/-- Helper: the Go expression for the C digit equals the pattern digit
and is at most 7. -/
lemma squawkC_code_eq : ∀ x < 256,
    (((x &&& 0x01) <<< 2) ||| ((x &&& 0x04) >>> 1) ||| ((x &&& 0x10) >>> 4) = squawkC x) ∧
      squawkC x ≤ 7 := by decide

/-- Helper: the Go expression for the D digit equals the pattern digit
and is at most 7. -/
lemma squawkD_code_eq : ∀ y < 256,
    (((y &&& 0x01) <<< 2) ||| ((y &&& 0x04) >>> 1) ||| ((y &&& 0x10) >>> 4) = squawkD y) ∧
      squawkD y ≤ 7 := by decide

/-- Helper: the A digit is at most 7. -/
lemma squawkA_le : ∀ x y : Nat, squawkA x y ≤ 7 := by
  intro x y
  unfold squawkA gillhamBit
  split <;> split <;> split <;> omega

/-- Claim C8: `decodeSquawkIdentity` on message bytes 2 and 3
de-interleaves the four octal digits per the pattern
`C1-A1-C2-A2-C4-A4-ZERO-B1-D1-B2-D2-B4-D4` and produces
`identity = a·1000 + b·100 + c·10 + d`; each digit is in `0..7`, so the
decimal digits of `identity` read as the four octal squawk digits. -/
theorem c8_squawk_identity (f : Frame) (h2 : msgByte f 2 < 256)
    (h3 : msgByte f 3 < 256) :
    ((decodeSquawkIdentity f 2 3).identity
        = squawkA (msgByte f 2) (msgByte f 3) * 1000 + squawkB (msgByte f 3) * 100 +
            squawkC (msgByte f 2) * 10 + squawkD (msgByte f 3)) ∧
    squawkA (msgByte f 2) (msgByte f 3) ≤ 7 ∧ squawkB (msgByte f 3) ≤ 7 ∧
    squawkC (msgByte f 2) ≤ 7 ∧ squawkD (msgByte f 3) ≤ 7 ∧
    (decodeSquawkIdentity f 2 3).identity / 1000 = squawkA (msgByte f 2) (msgByte f 3) ∧
    (decodeSquawkIdentity f 2 3).identity / 100 % 10 = squawkB (msgByte f 3) ∧
    (decodeSquawkIdentity f 2 3).identity / 10 % 10 = squawkC (msgByte f 2) ∧
    (decodeSquawkIdentity f 2 3).identity % 10 = squawkD (msgByte f 3) := by
  have hB := squawkB_code_eq (msgByte f 3) h3
  have hC := squawkC_code_eq (msgByte f 2) h2
  have hD := squawkD_code_eq (msgByte f 3) h3
  have hA7 := squawkA_le (msgByte f 2) (msgByte f 3)
  have hid : (decodeSquawkIdentity f 2 3).identity
      = squawkA (msgByte f 2) (msgByte f 3) * 1000 + squawkB (msgByte f 3) * 100 +
          squawkC (msgByte f 2) * 10 + squawkD (msgByte f 3) := by
    simp only [decodeSquawkIdentity]
    rw [squawkA_hi_eq (msgByte f 3) h3, squawkA_code_eq ((msgByte f 3).testBit 7)
      (msgByte f 2) h2, hB.1, hC.1, hD.1]
    rfl
  refine ⟨hid, hA7, hB.2, hC.2, hD.2, ?_, ?_, ?_, ?_⟩ <;> rw [hid] <;> omega

/-- Witness for C8: bytes `0x1F, 0xFF` (all pattern bits set) decode to
squawk identity 7777. -/
theorem c8_squawk_identity_witness :
    msgByte ({ message := some [0x28, 0, 0x1F, 0xFF, 0, 0, 0] } : Frame) 2 < 256 ∧
    (decodeSquawkIdentity ({ message := some [0x28, 0, 0x1F, 0xFF, 0, 0, 0] } : Frame) 2 3).identity
        / 1000
      = squawkA 0x1F 0xFF := by
  refine ⟨by decide, ?_⟩
  exact (c8_squawk_identity ({ message := some [0x28, 0, 0x1F, 0xFF, 0, 0, 0] } : Frame)
    (by decide) (by decide)).2.2.2.2.2.1

/-! ### Field-preservation lemmas for the per-DF decoders -/

@[simp] lemma decodeICAO_message (f : Frame) : (decodeICAO f).message = f.message := by
  unfold decodeICAO; repeat' split
  all_goals rfl

@[simp] lemma decodeICAO_downLinkFormat (f : Frame) :
    (decodeICAO f).downLinkFormat = f.downLinkFormat := by
  unfold decodeICAO; repeat' split
  all_goals rfl

@[simp] lemma decodeICAO_ca (f : Frame) : (decodeICAO f).ca = f.ca := by
  unfold decodeICAO; repeat' split
  all_goals rfl

@[simp] lemma decodeICAO_messageType (f : Frame) :
    (decodeICAO f).messageType = f.messageType := by
  unfold decodeICAO; repeat' split
  all_goals rfl

@[simp] lemma decodeCapability_message (f : Frame) :
    (decodeCapability f).message = f.message := by
  simp only [decodeCapability]; repeat' split
  all_goals rfl

@[simp] lemma decodeCapability_downLinkFormat (f : Frame) :
    (decodeCapability f).downLinkFormat = f.downLinkFormat := by
  simp only [decodeCapability]; repeat' split
  all_goals rfl

@[simp] lemma decodeCapability_ca (f : Frame) :
    (decodeCapability f).ca = msgByte f 0 &&& 7 := by
  simp only [decodeCapability]; repeat' split
  all_goals rfl

@[simp] lemma decodeCapability_icao (f : Frame) :
    (decodeCapability f).icao = f.icao := by
  simp only [decodeCapability]; repeat' split
  all_goals rfl

@[simp] lemma decodeCapability_messageType (f : Frame) :
    (decodeCapability f).messageType = f.messageType := by
  simp only [decodeCapability]; repeat' split
  all_goals rfl

@[simp] lemma decodeFlightStatus_message (f : Frame) :
    (decodeFlightStatus f).message = f.message := by
  simp only [decodeFlightStatus]; repeat' split
  all_goals rfl

@[simp] lemma decodeFlightStatus_downLinkFormat (f : Frame) :
    (decodeFlightStatus f).downLinkFormat = f.downLinkFormat := by
  simp only [decodeFlightStatus]; repeat' split
  all_goals rfl

@[simp] lemma decodeVerticalStatus_message (f : Frame) :
    (decodeVerticalStatus f).message = f.message := rfl

@[simp] lemma decodeVerticalStatus_downLinkFormat (f : Frame) :
    (decodeVerticalStatus f).downLinkFormat = f.downLinkFormat := rfl

@[simp] lemma decodeCrossLinkCapability_message (f : Frame) :
    (decodeCrossLinkCapability f).message = f.message := rfl

@[simp] lemma decodeCrossLinkCapability_downLinkFormat (f : Frame) :
    (decodeCrossLinkCapability f).downLinkFormat = f.downLinkFormat := rfl

@[simp] lemma decodeSensitivityLevel_message (f : Frame) :
    (decodeSensitivityLevel f).message = f.message := rfl

@[simp] lemma decodeSensitivityLevel_downLinkFormat (f : Frame) :
    (decodeSensitivityLevel f).downLinkFormat = f.downLinkFormat := rfl

@[simp] lemma decodeReplyInformation_message (f : Frame) :
    (decodeReplyInformation f).message = f.message := rfl

@[simp] lemma decodeReplyInformation_downLinkFormat (f : Frame) :
    (decodeReplyInformation f).downLinkFormat = f.downLinkFormat := rfl

@[simp] lemma decodeDownLinkRequest_message (f : Frame) :
    (decodeDownLinkRequest f).message = f.message := rfl

@[simp] lemma decodeDownLinkRequest_downLinkFormat (f : Frame) :
    (decodeDownLinkRequest f).downLinkFormat = f.downLinkFormat := rfl

@[simp] lemma decodeUtilityMessage_message (f : Frame) :
    (decodeUtilityMessage f).message = f.message := rfl

@[simp] lemma decodeUtilityMessage_downLinkFormat (f : Frame) :
    (decodeUtilityMessage f).downLinkFormat = f.downLinkFormat := rfl

@[simp] lemma decodeSquawkIdentity_message (f : Frame) (b1 b2 : Nat) :
    (decodeSquawkIdentity f b1 b2).message = f.message := rfl

@[simp] lemma decodeSquawkIdentity_downLinkFormat (f : Frame) (b1 b2 : Nat) :
    (decodeSquawkIdentity f b1 b2).downLinkFormat = f.downLinkFormat := rfl

@[simp] lemma decode13bitAltitudeCode_message (f : Frame) :
    (decode13bitAltitudeCode f).message = f.message := by
  simp only [decode13bitAltitudeCode]; repeat' split
  all_goals rfl

@[simp] lemma decode13bitAltitudeCode_downLinkFormat (f : Frame) :
    (decode13bitAltitudeCode f).downLinkFormat = f.downLinkFormat := by
  simp only [decode13bitAltitudeCode]; repeat' split
  all_goals rfl

@[simp] lemma decodeAdsb_message (f : Frame) : (decodeAdsb f).message = f.message := rfl

@[simp] lemma decodeAdsb_downLinkFormat (f : Frame) :
    (decodeAdsb f).downLinkFormat = f.downLinkFormat := rfl

@[simp] lemma decodeAdsb_icao (f : Frame) : (decodeAdsb f).icao = f.icao := rfl

@[simp] lemma decodeAdsb_ca (f : Frame) : (decodeAdsb f).ca = f.ca := rfl

@[simp] lemma decodeAdsb_messageType (f : Frame) :
    (decodeAdsb f).messageType = msgByte f 4 >>> 3 := rfl

@[simp] lemma decodeCommB_message (f : Frame) :
    (decodeCommB f).2.message = f.message := rfl

@[simp] lemma decodeCommB_downLinkFormat (f : Frame) :
    (decodeCommB f).2.downLinkFormat = f.downLinkFormat := rfl

@[simp] lemma msgByte_decodeDownLinkFormat (f : Frame) (i : Nat) :
    msgByte (decodeDownLinkFormat f) i = msgByte f i := rfl

@[simp] lemma msgLen_decodeDownLinkFormat (f : Frame) :
    msgLen (decodeDownLinkFormat f) = msgLen f := rfl

@[simp] lemma decodeDownLinkFormat_downLinkFormat (f : Frame) :
    (decodeDownLinkFormat f).downLinkFormat = dlfOf (msgByte f 0) := rfl

/-- The DF dispatch never touches the message bytes or the DF. -/
lemma dispatchDF_message (f : Frame) : (dispatchDF f).message = f.message := by
  unfold dispatchDF; repeat' split
  all_goals simp

/-- See `dispatchDF_message`. -/
lemma dispatchDF_downLinkFormat (f : Frame) :
    (dispatchDF f).downLinkFormat = f.downLinkFormat := by
  unfold dispatchDF; repeat' split
  all_goals simp

/-- On a successful `parse`, the length guard passed and the result is
the DF dispatch of the frame with the DF derived. -/
lemma parse_ok_char (f : Frame) (h : (parse f).1 = none) :
    getMessageLengthBytes (decodeDownLinkFormat f) = msgLen f ∧
    (parse f).2 = dispatchDF (decodeDownLinkFormat f) := by
  unfold parse at h ⊢
  by_cases hg : getMessageLengthBytes (decodeDownLinkFormat f) ≠
      msgLen (decodeDownLinkFormat f)
  · rw [if_pos hg] at h; exact absurd h (by simp)
  · rw [if_neg hg] at h ⊢
    constructor
    · simpa using hg
    · cases hcrc : checkCrc (decodeDownLinkFormat f) with
      | some e => rw [hcrc] at h; exact absurd h (by simp)
      | none => rfl

/-- Helper: for a 5-bit DF, bit 4 is set exactly when the DF is at
least 16. -/
lemma and16_iff : ∀ d < 32, (d &&& 0x10 ≠ 0 ↔ 16 ≤ d) := by decide

/-- Claim C2: on every successful `parse`, the message is 7 bytes long
iff the DF is below 16 and 14 bytes long iff the DF is at least 16; and
whenever the payload length differs from the length the DF implies
(14 bytes when bit 4 of the DF is set, 7 otherwise), `parse` fails with
the length-mismatch error and returns the frame with only the DF field
changed — no DF-specific fields are extracted. -/
theorem c2_length_invariant (f : Frame) (h0 : msgByte f 0 < 256) :
    ((parse f).1 = none →
      ((msgLen (parse f).2 = 7 ↔ (parse f).2.downLinkFormat < 16) ∧
        (msgLen (parse f).2 = 14 ↔ 16 ≤ (parse f).2.downLinkFormat))) ∧
    ((if dlfOf (msgByte f 0) &&& 0x10 ≠ 0 then 14 else 7) ≠ msgLen f →
      parse f = (some .lengthMismatch, decodeDownLinkFormat f)) := by
  constructor
  · intro hok
    obtain ⟨hlen, heq⟩ := parse_ok_char f hok
    have hmsg : msgLen (parse f).2 = msgLen f := by
      rw [heq]
      simp only [msgLen, dispatchDF_message]
      rfl
    have hdf : (parse f).2.downLinkFormat = dlfOf (msgByte f 0) := by
      rw [heq, dispatchDF_downLinkFormat]
      rfl
    have hd32 : dlfOf (msgByte f 0) < 32 := dlfOf_lt_32 _ h0
    have h16 := and16_iff (dlfOf (msgByte f 0)) hd32
    rw [hmsg, hdf]
    unfold getMessageLengthBytes at hlen
    simp only [decodeDownLinkFormat_downLinkFormat] at hlen
    by_cases hb : dlfOf (msgByte f 0) &&& 0x10 ≠ 0
    · rw [if_pos hb] at hlen
      constructor
      · constructor
        · intro h7; omega
        · intro hlt; exfalso; rw [h16] at hb; omega
      · constructor
        · intro _; rw [← h16]; exact hb
        · intro _; omega
    · rw [if_neg hb] at hlen
      have hlt : dlfOf (msgByte f 0) < 16 := by
        by_contra hge
        exact hb (h16.mpr (by omega))
      constructor
      · exact ⟨fun _ => hlt, fun _ => by omega⟩
      · exact ⟨fun h14 => by omega, fun hge => by omega⟩
  · intro hmis
    have hg : getMessageLengthBytes (decodeDownLinkFormat f) ≠
        msgLen (decodeDownLinkFormat f) := by
      unfold getMessageLengthBytes
      simpa using hmis
    unfold parse
    rw [if_pos hg]

/-- Witness for C2: a 7-byte DF5 frame parses and satisfies the length
invariant. -/
theorem c2_length_invariant_witness :
    msgByte ({ message := some [0x28, 0, 0, 0, 0, 0, 0] } : Frame) 0 < 256 ∧
    (((parse ({ message := some [0x28, 0, 0, 0, 0, 0, 0] } : Frame)).1 = none →
      ((msgLen (parse ({ message := some [0x28, 0, 0, 0, 0, 0, 0] } : Frame)).2 = 7 ↔
          (parse ({ message := some [0x28, 0, 0, 0, 0, 0, 0] } : Frame)).2.downLinkFormat < 16) ∧
        (msgLen (parse ({ message := some [0x28, 0, 0, 0, 0, 0, 0] } : Frame)).2 = 14 ↔
          16 ≤ (parse ({ message := some [0x28, 0, 0, 0, 0, 0, 0] } : Frame)).2.downLinkFormat))) ∧
      ((if dlfOf (msgByte ({ message := some [0x28, 0, 0, 0, 0, 0, 0] } : Frame) 0) &&& 0x10 ≠ 0
          then 14 else 7) ≠ msgLen ({ message := some [0x28, 0, 0, 0, 0, 0, 0] } : Frame) →
        parse ({ message := some [0x28, 0, 0, 0, 0, 0, 0] } : Frame)
          = (some .lengthMismatch,
             decodeDownLinkFormat ({ message := some [0x28, 0, 0, 0, 0, 0, 0] } : Frame)))) :=
  ⟨by decide, c2_length_invariant _ (by decide)⟩

/-- Claim C9: for every DF18 frame that decodes, the control field CF
(`message[0] & 7`) is extracted; iff `CF = 0` the ICAO (bytes 1–3) is
extracted and the ADS-B ME sub-decoder runs (observable through the ME
type code); with `CF ≠ 0` the `icao` field remains 0 and no ME fields
are extracted. -/
theorem c9_df18_cf_gate (f : Frame) (hdf : dlfOf (msgByte f 0) = 18)
    (hic : f.icao = 0) (hmt : f.messageType = 0) (hok : (parse f).1 = none) :
    ((parse f).2.ca = msgByte f 0 &&& 7) ∧
    (msgByte f 0 &&& 7 = 0 →
      (parse f).2.icao = msgByte f 1 <<< 16 ||| msgByte f 2 <<< 8 ||| msgByte f 3 ∧
      (parse f).2.messageType = msgByte f 4 >>> 3) ∧
    (msgByte f 0 &&& 7 ≠ 0 →
      (parse f).2.icao = 0 ∧ (parse f).2.messageType = 0) := by
  obtain ⟨-, heq⟩ := parse_ok_char f hok
  rw [heq]
  set fd := decodeDownLinkFormat f with hfd
  have hdfd : fd.downLinkFormat = 18 := by rw [hfd]; simpa using hdf
  unfold dispatchDF
  rw [if_neg (by omega), if_neg (by omega), if_neg (by omega), if_neg (by omega),
    if_neg (by omega), if_neg (by omega), if_pos hdfd]
  have hca : (decodeCapability fd).ca = msgByte f 0 &&& 7 := by
    rw [decodeCapability_ca]; rfl
  by_cases hz : msgByte f 0 &&& 7 = 0
  · rw [if_pos (by rw [hca]; exact hz)]
    refine ⟨by simp [hfd], fun _ => ⟨?_, ?_⟩, fun hnz => absurd hz hnz⟩
    · rw [decodeAdsb_icao]
      have hdf18 : (decodeCapability fd).downLinkFormat = 18 := by
        rw [decodeCapability_downLinkFormat]; exact hdfd
      unfold decodeICAO
      rw [if_neg (by omega), if_neg (by omega), if_pos (by omega)]
      simp only [msgByte, decodeCapability_message]
      rfl
    · rw [decodeAdsb_messageType]
      simp only [msgByte, decodeICAO_message, decodeCapability_message]
      rfl
  · rw [if_neg (by rw [hca]; exact hz)]
    refine ⟨hca, fun hzz => absurd hzz hz, fun _ => ⟨?_, ?_⟩⟩
    · rw [decodeCapability_icao]; simpa using hic
    · rw [decodeCapability_messageType]; simpa using hmt

/-- Witness for C9: the CRC-valid DF18 frame with CF = 0. -/
theorem c9_df18_cf_gate_witness :
    dlfOf (msgByte exampleDF18 0) = 18 ∧ (parse exampleDF18).1 = none ∧
    (parse exampleDF18).2.ca = msgByte exampleDF18 0 &&& 7 :=
  ⟨by decide, by decide,
    (c9_df18_cf_gate exampleDF18 (by decide) (by decide) (by decide) (by decide)).1⟩

/-! ### Decode idempotence (C3) -/

/-- A frame that has already decoded is returned unchanged with a nil
error. -/
lemma decode_decoded (f : Frame) (h : f.hasDecoded = true) : Decode f = (none, f) := by
  unfold Decode
  rw [if_pos h]

/-- A successful `Decode` latches the `hasDecoded` flag. -/
lemma decode_ok_hasDecoded (f : Frame) (h : (Decode f).1 = none) :
    (Decode f).2.hasDecoded = true := by
  unfold Decode at h ⊢
  by_cases h1 : f.hasDecoded
  · rw [if_pos h1] at h ⊢
    exact h1
  · rw [if_neg h1] at h ⊢
    by_cases h2 : f.fromBytes
    · rw [if_pos h2] at h ⊢
      by_cases hp : (parse f).1 = none
      · rw [if_pos hp] at h ⊢
      · rw [if_neg hp] at h ⊢
        exact absurd h hp
    · rw [if_neg h2] at h ⊢
      by_cases hp : (parseIntoRaw f).1 = none
      · rw [if_pos hp] at h ⊢
        by_cases h3 : isNoOp (parseIntoRaw f).2 = true
        · rw [if_pos h3] at h ⊢
          exact absurd h (by simp)
        · rw [if_neg h3] at h ⊢
          by_cases hq : (parse (parseIntoRaw f).2).1 = none
          · rw [if_pos hq] at h ⊢
          · rw [if_neg hq] at h ⊢
            exact absurd h hq
      · rw [if_neg hp] at h ⊢
        exact absurd h hp

/-- Claim C3, amended: `Decode` is idempotent after a *successful* first
call: when `Decode` returns a nil error, every later call returns the
same nil result and leaves the frame state unchanged (the first
successful call latched `hasDecoded`).  The unamended claim — that this
holds for every frame — is refuted by
`c3_decode_not_idempotent_counterexample`. -/
theorem c3_decode_idempotent_after_success (f f' : Frame)
    (h : Decode f = (none, f')) : Decode f' = (none, f') := by
  have h1 : (Decode f).1 = none := by rw [h]
  have h2 : (Decode f).2 = f' := by rw [h]
  have h3 := decode_ok_hasDecoded f h1
  rw [h2] at h3
  exact decode_decoded f' h3

/-- Witness for the amended C3: the good DF5 AVR frame decodes, and a
second `Decode` reproduces the same state and result. -/
theorem c3_decode_idempotent_witness :
    Decode ((Decode (mkFrame goodAvr)).2) = (none, (Decode (mkFrame goodAvr)).2) :=
  c3_decode_idempotent_after_success (mkFrame goodAvr) _ (by decide)

/-- Counterexample to claim C3: on the frame `*2800000000000G` the first
`Decode()` fails with the bad-hex error, leaving `raw` and a
partially-written `message` behind; because `parseIntoRaw` and
`parseRawToMessage` early-return once those fields are set, a second
`Decode()` call re-runs `parse` on the partial message and *succeeds* —
a different result and a different observable state than the first
call, refuting the claim as stated. -/
theorem c3_decode_not_idempotent_counterexample :
    (Decode (mkFrame badHexAvr)).1 = some DecodeError.badHex ∧
    (Decode (mkFrame badHexAvr)).2.hasDecoded = false ∧
    (Decode ((Decode (mkFrame badHexAvr)).2)).1 = none ∧
    (Decode ((Decode (mkFrame badHexAvr)).2)).2.hasDecoded = true := by decide

/-! ### The AVR MLAT prefix (C5) -/

/-- The function `parseRawToMessage` only writes the `message` field. -/
@[simp] lemma parseRawToMessage_mode (f : Frame) :
    (parseRawToMessage f).2.mode = f.mode := by
  simp only [parseRawToMessage]; repeat' split
  all_goals rfl

/-- See `parseRawToMessage_mode`. -/
@[simp] lemma parseRawToMessage_beastTimeStamp (f : Frame) :
    (parseRawToMessage f).2.beastTimeStamp = f.beastTimeStamp := by
  simp only [parseRawToMessage]; repeat' split
  all_goals rfl

/-- See `parseRawToMessage_mode`. -/
@[simp] lemma parseRawToMessage_raw (f : Frame) :
    (parseRawToMessage f).2.raw = f.raw := by
  simp only [parseRawToMessage]; repeat' split
  all_goals rfl

/-- The function `hexStep` keeps a `none` accumulator. -/
lemma foldl_hexStep_none : ∀ s : List Char, s.foldl hexStep none = none
  | [] => rfl
  | _ :: cs => foldl_hexStep_none cs

/-- The fold inside `hexParse` is `some` exactly on all-hex strings. -/
lemma hexParse_foldl_isSome : ∀ (s : List Char) (a : Nat),
    ((s.foldl hexStep (some a)).isSome = true ↔ ∀ c ∈ s, (hexVal c).isSome = true)
  | [], a => by simp
  | c :: cs, a => by
      rw [List.foldl_cons]
      cases hc : hexVal c with
      | none =>
          have hs : hexStep (some a) c = none := by simp [hexStep, hc]
          rw [hs, foldl_hexStep_none]
          constructor
          · intro h; exact absurd h (by simp)
          · intro h; exact absurd (h c (by simp)) (by simp [hc])
      | some d =>
          have hs : hexStep (some a) c = some (a * 16 + d) := by simp [hexStep, hc]
          rw [hs, hexParse_foldl_isSome cs (a * 16 + d)]
          constructor
          · intro h c' hmem
            rcases List.mem_cons.mp hmem with rfl | hmem2
            · simp [hc]
            · exact h c' hmem2
          · intro h c' hmem
            exact h c' (List.mem_cons_of_mem _ hmem)

/-- The function `hexParse` succeeds exactly on all-hex strings. -/
lemma hexParse_isSome_iff (s : List Char) :
    (hexParse s).isSome = true ↔ ∀ c ∈ s, (hexVal c).isSome = true :=
  hexParse_foldl_isSome s 0

/-- The function `parseBeastTimeStamp` succeeds on an all-zero or all-hex timestamp,
touching only the tick fields. -/
lemma parseBeastTimeStamp_ok (f : Frame)
    (hts : f.beastTimeStamp = zeros11 ∨ ∀ c ∈ f.beastTimeStamp, (hexVal c).isSome = true) :
    ∃ t tn, parseBeastTimeStamp f
      = (none, { f with beastTicks := t, beastTicksNs := tn }) := by
  unfold parseBeastTimeStamp
  by_cases hz : f.beastTimeStamp = [] ∨ f.beastTimeStamp = zeros11
  · rw [if_pos hz]
    exact ⟨f.beastTicks, f.beastTicksNs, rfl⟩
  · rw [if_neg hz]
    have hhex : ∀ c ∈ f.beastTimeStamp, (hexVal c).isSome = true := by
      rcases hts with hzz | hh
      · exact absurd (Or.inr hzz) hz
      · exact hh
    rw [if_pos ((hexParse_isSome_iff f.beastTimeStamp).mpr hhex)]
    exact ⟨_, _, rfl⟩

/-- Claim C5, amended: for an AVR frame whose trimmed text starts with
`@` (and is long enough, with a parseable timestamp), the parser takes
exactly the 11 characters after `@` as the Beast MLAT timestamp, sets
`mode = MLAT`, and hex-decodes the message from offset 13 — that is,
from one character *past* the 11-digit timestamp, skipping the
character at index 12.  The unamended claim (decode starts immediately
after the timestamp, at offset 12) is refuted by
`c5_mlat_prefix_counterexample`. -/
theorem c5_mlat_prefix (s : List Char) (hAt : (trimGo s).headD ' ' = '@')
    (hlen : 14 ≤ (trimGo s).length)
    (hts : ((trimGo s).drop 1).take 11 = zeros11 ∨
      ∀ c ∈ ((trimGo s).drop 1).take 11, (hexVal c).isSome = true) :
    (parseIntoRaw (mkFrame s)).2.mode = "MLAT" ∧
    (parseIntoRaw (mkFrame s)).2.beastTimeStamp = ((trimGo s).drop 1).take 11 ∧
    (parseIntoRaw (mkFrame s)).2.raw = (trimGo s).drop 13 := by
  have hne : trimGo s ≠ [] := by
    intro hcontra
    rw [hcontra] at hlen
    simp at hlen
  simp only [parseIntoRaw, mkFrame]
  rw [if_neg (by simp), if_neg hne, if_neg (by omega), if_pos hAt, if_pos hAt]
  obtain ⟨t, tn, hpb⟩ := parseBeastTimeStamp_ok
    { full := s, mode := "MLAT", beastTimeStamp := ((trimGo s).drop 1).take 11 }
    (by simpa using hts)
  rw [hpb]
  rw [if_pos rfl]
  have hraw : (trimGo s).drop 13 ≠ [] := by
    intro hcontra
    have hl := congrArg List.length hcontra
    rw [List.length_drop] at hl
    simp at hl
    omega
  split
  · next hc =>
      exfalso
      exact hraw (by simpa using hc)
  · refine ⟨?_, ?_, ?_⟩
    · rw [parseRawToMessage_mode]
    · rw [parseRawToMessage_beastTimeStamp]
    · rw [parseRawToMessage_raw]

/-- Witness for the amended C5 at the concrete marker frame. -/
theorem c5_mlat_prefix_witness :
    (trimGo mlatMarkerAvr).headD ' ' = '@' ∧
    (parseIntoRaw (mkFrame mlatMarkerAvr)).2.mode = "MLAT" ∧
    (parseIntoRaw (mkFrame mlatMarkerAvr)).2.beastTimeStamp
      = ((trimGo mlatMarkerAvr).drop 1).take 11 ∧
    (parseIntoRaw (mkFrame mlatMarkerAvr)).2.raw = (trimGo mlatMarkerAvr).drop 13 :=
  ⟨by decide, c5_mlat_prefix mlatMarkerAvr (by decide) (by decide)
    (Or.inl (by decide))⟩

/-- Counterexample to claim C5: on `@00000000000A00000000000000` the parse
succeeds and the decoded message comes from offset 13 (the fourteen
`0`s), *not* from the characters immediately following the 11-digit
timestamp (offset 12, which start with the marker `A`): the claim's
"immediately following" is off by one. -/
theorem c5_mlat_prefix_counterexample :
    (parseIntoRaw (mkFrame mlatMarkerAvr)).1 = none ∧
    (parseIntoRaw (mkFrame mlatMarkerAvr)).2.beastTimeStamp
      = ((trimGo mlatMarkerAvr).drop 1).take 11 ∧
    (parseIntoRaw (mkFrame mlatMarkerAvr)).2.raw ≠ (trimGo mlatMarkerAvr).drop 12 ∧
    (parseIntoRaw (mkFrame mlatMarkerAvr)).2.raw = (trimGo mlatMarkerAvr).drop 13 := by
  decide

/-! ### AVR parse success characterisation (C6) -/

/-- The hex-pair write loop preserves the buffer length. -/
lemma writePairs_length : ∀ (raw : List Char) (msg : List Nat) (idx : Nat),
    ((writePairs raw msg idx).2).length = msg.length
  | [], _, _ => rfl
  | [_], _, _ => rfl
  | c1 :: c2 :: rest, msg, idx => by
      unfold writePairs
      cases hc1 : hexVal c1 with
      | none => rfl
      | some h =>
          cases hc2 : hexVal c2 with
          | none => rfl
          | some l =>
              rw [writePairs_length rest (msg.set idx (h * 16 + l)) (idx + 1)]
              exact List.length_set msg idx (h * 16 + l)

/-- The hex-pair write loop succeeds exactly when every character is a
hex digit (for even-length input). -/
lemma writePairs_ok_iff : ∀ (raw : List Char) (msg : List Nat) (idx : Nat),
    raw.length % 2 = 0 →
    ((writePairs raw msg idx).1 = none ↔ ∀ c ∈ raw, (hexVal c).isSome = true)
  | [], _, _, _ => by simp [writePairs]
  | [c], _, _, h => by simp at h
  | c1 :: c2 :: rest, msg, idx, h => by
      have hrest : rest.length % 2 = 0 := by
        simp only [List.length_cons] at h
        omega
      unfold writePairs
      cases hc1 : hexVal c1 with
      | none =>
          constructor
          · intro hcontra; exact absurd hcontra (by simp)
          · intro hall; exact absurd (hall c1 (by simp)) (by simp [hc1])
      | some h1 =>
          cases hc2 : hexVal c2 with
          | none =>
              constructor
              · intro hcontra; exact absurd hcontra (by simp)
              · intro hall; exact absurd (hall c2 (by simp)) (by simp [hc2])
          | some h2 =>
              rw [writePairs_ok_iff rest (msg.set idx (h1 * 16 + h2)) (idx + 1) hrest]
              constructor
              · intro hall c hmem
                rcases List.mem_cons.mp hmem with rfl | hmem2
                · simp [hc1]
                · rcases List.mem_cons.mp hmem2 with rfl | hmem3
                  · simp [hc2]
                  · exact hall c hmem3
              · intro hall c hmem
                exact hall c (by simp [hmem])

/-- The function `parseRawToMessage` succeeds on a fresh frame exactly when `raw`
has 14 or 28 characters, all hex. -/
lemma parseRawToMessage_ok_iff (f : Frame) (hm : f.message = none) :
    ((parseRawToMessage f).1 = none ↔
      ((f.raw.length = 14 ∨ f.raw.length = 28) ∧
        ∀ c ∈ f.raw, (hexVal c).isSome = true)) := by
  unfold parseRawToMessage
  rw [if_neg (by simp [hm])]
  by_cases he : f.raw.length % 2 ≠ 0
  · rw [if_pos he]
    constructor
    · intro h; exact absurd h (by simp)
    · rintro ⟨h14, -⟩; exfalso; omega
  · rw [if_neg he]
    push_neg at he
    by_cases hl : ¬(f.raw.length / 2 = 7 ∨ f.raw.length / 2 = 14)
    · rw [if_pos hl]
      constructor
      · intro h; exact absurd h (by simp)
      · rintro ⟨h14, -⟩; exfalso; omega
    · rw [if_neg hl]
      push_neg at hl
      have hlen14 : f.raw.length = 14 ∨ f.raw.length = 28 := by omega
      by_cases hw : (writePairs f.raw (List.replicate (f.raw.length / 2) 0) 0).1 = none
      · rw [if_pos hw]
        have hnz : ¬((writePairs f.raw (List.replicate (f.raw.length / 2) 0) 0).2.length = 0) := by
          rw [writePairs_length, List.length_replicate]
          omega
        rw [if_neg hnz]
        constructor
        · intro _
          exact ⟨hlen14, (writePairs_ok_iff f.raw _ 0 he).mp hw⟩
        · intro _; rfl
      · rw [if_neg hw]
        constructor
        · intro h; exact absurd h hw
        · rintro ⟨-, hall⟩
          exact absurd ((writePairs_ok_iff f.raw _ 0 he).mpr hall) hw

/-- The function `parseBeastTimeStamp` succeeds exactly on an empty, all-zero or
all-hex timestamp. -/
lemma parseBeastTimeStamp_ok_iff (f : Frame) :
    ((parseBeastTimeStamp f).1 = none ↔
      (f.beastTimeStamp = [] ∨ f.beastTimeStamp = zeros11 ∨
        ∀ c ∈ f.beastTimeStamp, (hexVal c).isSome = true)) := by
  unfold parseBeastTimeStamp
  by_cases hz : f.beastTimeStamp = [] ∨ f.beastTimeStamp = zeros11
  · rw [if_pos hz]
    constructor
    · intro _
      rcases hz with h1 | h2
      · exact Or.inl h1
      · exact Or.inr (Or.inl h2)
    · intro _; rfl
  · rw [if_neg hz]
    by_cases hs : (hexParse f.beastTimeStamp).isSome = true
    · rw [if_pos hs]
      constructor
      · intro _
        exact Or.inr (Or.inr ((hexParse_isSome_iff f.beastTimeStamp).mp hs))
      · intro _; rfl
    · rw [if_neg hs]
      constructor
      · intro h; exact absurd h (by simp)
      · intro hd
        rcases hd with h1 | h2 | h3
        · exact absurd (Or.inl h1) hz
        · exact absurd (Or.inr h2) hz
        · exact absurd ((hexParse_isSome_iff f.beastTimeStamp).mpr h3) hs

/-- Claim C6, amended: an AVR text frame parses into message bytes iff,
after trimming surrounding whitespace and `;` characters, the text is
non-empty and at least 14 characters, the `@` framing (when present)
carries an all-zero or all-hex 11-digit timestamp, and the characters
past the framing — offset 13 for `@` (one past the timestamp), 1 for
`*`, 0 otherwise — number exactly 14 or 28 and are all hex digits; in
every other case parsing returns an error.  The unamended claim, with
the message starting immediately after the 11-digit timestamp, is
refuted by `c6_avr_parse_counterexample`. -/
theorem c6_avr_parse_iff (s : List Char) (hascii : ∀ c ∈ s, c.toNat < 128) :
    ((parseIntoRaw (mkFrame s)).1 = none ↔ avrFramingOk s) := by
  simp only [parseIntoRaw, mkFrame]
  rw [if_neg (by simp)]
  by_cases hnil : trimGo s = []
  · rw [if_pos hnil]
    constructor
    · intro h; exact absurd h (by simp)
    · rintro ⟨hne, -⟩; exact absurd hnil hne
  · rw [if_neg hnil]
    by_cases hshort : (trimGo s).length < 14
    · rw [if_pos hshort]
      constructor
      · intro h; exact absurd h (by simp)
      · rintro ⟨-, hlen, -⟩; omega
    · rw [if_neg hshort]
      push_neg at hshort
      by_cases hAt : (trimGo s).headD ' ' = '@'
      · rw [if_pos hAt, if_pos hAt]
        have htsne : ((trimGo s).drop 1).take 11 ≠ [] := by
          have h1 : (((trimGo s).drop 1).take 11).length = 11 := by
            rw [List.length_take, List.length_drop]
            omega
          intro hc
          rw [hc] at h1
          exact absurd h1 (by simp)
        by_cases hts : tsOk (((trimGo s).drop 1).take 11)
        · obtain ⟨t, tn, hpb⟩ := parseBeastTimeStamp_ok
            { full := s, mode := "MLAT", beastTimeStamp := ((trimGo s).drop 1).take 11 }
            (by simpa [tsOk] using hts)
          rw [hpb, if_pos rfl]
          have hraw : (trimGo s).drop 13 ≠ [] := by
            intro hcontra
            have hlc := congrArg List.length hcontra
            rw [List.length_drop] at hlc
            simp only [List.length_nil] at hlc
            omega
          split
          · next hc => exact absurd (by simpa using hc) hraw
          · rw [parseRawToMessage_ok_iff]
            · unfold avrFramingOk avrRest
              rw [if_pos hAt]
              constructor
              · rintro ⟨hle, hh⟩
                exact ⟨hnil, hshort, fun _ => hts, by simpa using hle, by simpa using hh⟩
              · rintro ⟨-, -, -, hle, hh⟩
                exact ⟨by simpa using hle, by simpa using hh⟩
            · rfl
        · have hfail : ¬((parseBeastTimeStamp
              { full := s, mode := "MLAT",
                beastTimeStamp := ((trimGo s).drop 1).take 11 } : Option DecodeError × Frame).1
                = none) := by
            rw [parseBeastTimeStamp_ok_iff]
            intro hd
            rcases hd with h1 | h2 | h3
            · exact htsne (by simpa using h1)
            · exact hts (Or.inl (by simpa using h2))
            · exact hts (Or.inr (by simpa using h3))
          rw [if_neg hfail]
          constructor
          · intro h; exact absurd h hfail
          · rintro ⟨-, -, himp, -, -⟩
            exact absurd (himp hAt) hts
      · rw [if_neg hAt, if_neg hAt]
        by_cases hstar : (trimGo s).headD ' ' = '*'
        · rw [if_pos hstar]
          have hrawne : (trimGo s).drop 1 ≠ [] := by
            intro hcontra
            have hlc := congrArg List.length hcontra
            rw [List.length_drop] at hlc
            simp only [List.length_nil] at hlc
            omega
          split
          · next hc => exact absurd (by simpa using hc) hrawne
          · rw [parseRawToMessage_ok_iff]
            · unfold avrFramingOk avrRest
              rw [if_neg hAt, if_pos hstar]
              constructor
              · rintro ⟨hle, hh⟩
                exact ⟨hnil, hshort, fun hc => absurd hc hAt,
                  by simpa using hle, by simpa using hh⟩
              · rintro ⟨-, -, -, hle, hh⟩
                exact ⟨by simpa using hle, by simpa using hh⟩
            · rfl
        · rw [if_neg hstar]
          have hrawne : (trimGo s).drop 0 ≠ [] := by
            rw [List.drop_zero]
            exact hnil
          split
          · next hc => exact absurd (by simpa using hc) hrawne
          · rw [parseRawToMessage_ok_iff]
            · unfold avrFramingOk avrRest
              rw [if_neg hAt, if_neg hstar]
              constructor
              · rintro ⟨hle, hh⟩
                exact ⟨hnil, hshort, fun hc => absurd hc hAt,
                  by simpa using hle, by simpa using hh⟩
              · rintro ⟨-, -, -, hle, hh⟩
                exact ⟨by simpa using hle, by simpa using hh⟩
            · rfl

/-- Witness for the amended C6 at the good DF5 AVR frame. -/
theorem c6_avr_parse_iff_witness :
    (∀ c ∈ goodAvr, c.toNat < 128) ∧
    ((parseIntoRaw (mkFrame goodAvr)).1 = none ↔ avrFramingOk goodAvr) :=
  ⟨by decide, c6_avr_parse_iff goodAvr (by decide)⟩

/-- Counterexample to claim C6: on an at-sign followed by 25 zeros, the claim's
framing ('@' plus the 11-digit timestamp) leaves exactly 14 hex digits,
so the claim predicts success; the code decodes from offset 13 instead,
sees 13 characters, and fails with the odd-length error: the claimed
equivalence is false at this input. -/
theorem c6_avr_parse_counterexample :
    ¬(((parseIntoRaw (mkFrame mlatShortAvr)).1 = none) ↔ avrClaimOk mlatShortAvr) := by
  unfold avrClaimOk avrClaimRest
  decide
